import Mathlib

/-!
Verification of the commit-history policy checker (`commit_checks.py`).

The checker reads a source branch and a target branch from the command
line, shells out to git twice (once for the ahead/behind commit distance,
once for a first-parent ancestry description), parses the text output and
returns a process exit code: 0 on pass, 1 on a policy failure, -1 on a
query or usage error.

The embedding below mirrors the Python code line by line.  External
subprocess calls are modelled by an oracle `git : String → Except String
String` mapping the exact invocation string to either the decoded stdout
of the call (`Except.ok`) or a raised exception (`Except.error`).
-/

namespace CommitChecks

/-- Python whitespace characters relevant to `str.strip` and `int(...)`
(ASCII subset, which covers every byte git emits here). -/
def isPyWhitespace (c : Char) : Bool :=
  c = ' ' || c = '\t' || c = '\n' || c = '\r' || c = '\x0b' || c = '\x0c'

/-- Digit-accumulation loop of Python `int(str)` after the first digit:
subsequent characters may be digits or single underscores between digits,
and trailing whitespace is permitted (Python strips it before parsing). -/
def parseDigitsAux : Nat → List Char → Option Nat
  | acc, [] => some acc
  | acc, '_' :: c :: cs =>
    if c.isDigit then parseDigitsAux (acc * 10 + (c.toNat - 48)) cs else none
  | acc, c :: cs =>
    if c.isDigit then parseDigitsAux (acc * 10 + (c.toNat - 48)) cs
    else if isPyWhitespace c && cs.all isPyWhitespace then some acc
    else none

/-- Model of Python `int(s)` on a character list: optional surrounding
whitespace, optional sign, then a nonempty digit string (with Python's
underscore grouping); anything else raises, modelled as `none`. -/
def pythonInt (s : List Char) : Option Int :=
  match s.dropWhile isPyWhitespace with
  | '+' :: c :: rest =>
    if c.isDigit then (parseDigitsAux (c.toNat - 48) rest).map Int.ofNat else none
  | '-' :: c :: rest =>
    if c.isDigit then (parseDigitsAux (c.toNat - 48) rest).map (fun n => -(Int.ofNat n)) else none
  | c :: rest =>
    if c.isDigit then (parseDigitsAux (c.toNat - 48) rest).map Int.ofNat else none
  | [] => none

/-- Helper for `pyRsplitTab1`: locate the last tab, returning the pieces
before and after it, or `none` when the list holds no tab. -/
def rsplitTab1Aux : List Char → Option (List Char × List Char)
  | [] => none
  | c :: cs =>
    match rsplitTab1Aux cs with
    | some (l, r) => some (c :: l, r)
    | none => if c = '\t' then some ([], cs) else none

/-- Model of Python `s.rsplit("\t", maxsplit=1)`: split at the last tab
when one exists, otherwise return the whole string as a single token. -/
def pyRsplitTab1 (s : List Char) : List (List Char) :=
  match rsplitTab1Aux s with
  | some (l, r) => [l, r]
  | none => [s]

/-- Model of `behind, ahead = [int(dist) for dist in out.rsplit("\t", maxsplit=1)]`:
`none` when any `int(...)` raises or the unpacking does not see exactly
two values. -/
def parseDistance (out : String) : Option (Int × Int) :=
  match (pyRsplitTab1 out.data).mapM pythonInt with
  | some [b, a] => some (b, a)
  | _ => none

/-- Model of Python `s.split("/")`. -/
def splitSlash : List Char → List (List Char)
  | [] => [[]]
  | c :: cs =>
    match splitSlash cs with
    | r :: rs => if c = '/' then [] :: r :: rs else (c :: r) :: rs
    | [] => [[c]]

/-- Last element of a list of character lists (Python `[-1]` on the
always-nonempty result of `split`). -/
def lastL : List (List Char) → List Char
  | [] => []
  | [x] => x
  | _ :: x :: xs => lastL (x :: xs)

/-- Model of Python `s.strip()` (ASCII whitespace). -/
def pyStripL (cs : List Char) : List Char :=
  ((cs.dropWhile isPyWhitespace).reverse.dropWhile isPyWhitespace).reverse

/-- Model of `out.decode("utf-8").split("/")[-1].strip()`: the Ancestry
Label derived from the `git describe` output. -/
def ancestryLabel (out : String) : String :=
  ⟨pyStripL (lastL (splitSlash out.data))⟩

/-- Model of Python `str(...)` applied to the optional `srcb` argument:
`str(None)` is the literal string `"None"`. -/
def pyStr : Option String → String
  | none => "None"
  | some s => s

/-- The module-level policy constant `COMMIT_LIMIT = 15`. -/
def COMMIT_LIMIT : Int := 15

/-- The exact shell invocation used for the ahead/behind distance query. -/
def revListInvocation (tgtb srcb : String) : String :=
  "git rev-list --count --left-right " ++ tgtb ++ "..." ++ srcb

/-- The exact shell invocation used for the ancestry query. -/
def describeInvocation (srcb : String) : String :=
  "git describe --all --first-parent " ++ srcb ++ "~1 --abbrev=0"

/-- The spec's policy verdict: the categorical outcome of one invocation,
read off the return path taken by `main`. -/
inductive Verdict where
  | pass
  | needsRebase
  | tooManyCommits
  | wrongAncestry
  | queryError
deriving DecidableEq, Repr

/-- Observable outcome of one invocation: the verdict, the value returned
by `main` (the process exit status handed to `sys.exit`), and how many
times each of the two git invocations was executed. -/
structure RunResult where
  verdict : Verdict
  exitCode : Int
  revListCalls : Nat
  describeCalls : Nat
deriving DecidableEq, Repr

/-- Shallow embedding of `main()` in `commit_checks.py`.  `srcb` is the
parsed `-s` argument (`none` when absent), `tgtb` the `-t` argument
(default `"origin/main"`), and `git` the subprocess oracle. -/
def main (srcb : Option String) (tgtb : String)
    (git : String → Except String String) : RunResult :=
  if pyStr srcb = "None" then
    ⟨Verdict.queryError, -1, 0, 0⟩
  else
    match git (revListInvocation tgtb (pyStr srcb)) with
    | Except.error _ => ⟨Verdict.queryError, -1, 1, 0⟩
    | Except.ok out =>
      match parseDistance out with
      | none => ⟨Verdict.queryError, -1, 1, 0⟩
      | some (behind, ahead) =>
        if behind > 0 then
          ⟨Verdict.needsRebase, 1, 1, 0⟩
        else if ahead > COMMIT_LIMIT then
          ⟨Verdict.tooManyCommits, 1, 1, 0⟩
        else
          match git (describeInvocation (pyStr srcb)) with
          | Except.error _ => ⟨Verdict.queryError, -1, 1, 1⟩
          | Except.ok out2 =>
            if ancestryLabel out2 ≠ "main" then
              ⟨Verdict.wrongAncestry, 1, 1, 1⟩
            else
              ⟨Verdict.pass, 0, 1, 1⟩

end CommitChecks

namespace CommitChecks

/-- `List.mapM` over a two-element list in the `Option` monad, spelled
out as the two underlying applications. -/
theorem mapM_pair {α β : Type} (f : α → Option β) (x y : α) :
    List.mapM f [x, y] =
      match f x, f y with
      | some b, some a => some [b, a]
      | _, _ => none := by
  cases hfx : f x <;> cases hfy : f y <;>
    simp [List.mapM, List.mapM.loop, hfx, hfy]

/-- `List.mapM` over a one-element list in the `Option` monad. -/
theorem mapM_single {α β : Type} (f : α → Option β) (x : α) :
    List.mapM f [x] = (f x).map (fun b => [b]) := by
  cases hfx : f x <;> simp [List.mapM, List.mapM.loop, hfx]

/-- A value produced by `pythonInt` is non-negative unless the token
begins (after leading whitespace) with a minus sign. -/
theorem pythonInt_nonneg {p : List Char} {v : Int}
    (h : pythonInt p = some v)
    (hm : (p.dropWhile isPyWhitespace).head? ≠ some '-') : 0 ≤ v := by
  unfold pythonInt at h
  split at h
  · rename_i c rest heq
    split at h
    · obtain ⟨n, _, rfl⟩ := Option.map_eq_some'.mp h
      exact Int.ofNat_nonneg n
    · exact absurd h (by simp)
  · rename_i c rest heq
    rw [heq] at hm
    simp at hm
  · rename_i c rest _ _ heq
    split at h
    · obtain ⟨n, _, rfl⟩ := Option.map_eq_some'.mp h
      exact Int.ofNat_nonneg n
    · exact absurd h (by simp)
  · exact absurd h (by simp)

/-- When a character list holds no slash, `splitSlash` returns it whole
as the only segment. -/
theorem splitSlash_no_slash (cs : List Char) (h : ∀ c ∈ cs, c ≠ '/') :
    splitSlash cs = [cs] := by
  induction cs with
  | nil => rfl
  | cons c cs ih =>
    have hc : c ≠ '/' := h c (List.mem_cons_self c cs)
    have ht : splitSlash cs = [cs] := ih fun x hx => h x (List.mem_cons_of_mem c hx)
    simp [splitSlash, ht, hc]

end CommitChecks

namespace CommitChecks

/-- C1: whenever the source branch is present, the distance query
succeeds and the parsed commit distance has `behind > 0`, the verdict is
NeedsRebase with exit code 1, for every value of `ahead` — so the
`behind` check fires before the ahead-limit check. -/
theorem behind_pos_needsRebase (srcb : Option String) (tgtb : String)
    (git : String → Except String String) (out : String) (behind ahead : Int)
    (hs : pyStr srcb ≠ "None")
    (hrev : git (revListInvocation tgtb (pyStr srcb)) = Except.ok out)
    (hparse : parseDistance out = some (behind, ahead))
    (hb : 0 < behind) :
    (CommitChecks.main srcb tgtb git).verdict = Verdict.needsRebase ∧
      (CommitChecks.main srcb tgtb git).exitCode = 1 := by
  simp [CommitChecks.main, hs, hrev, hparse, hb]

/-- Witness for C1 at distance output `"2\t1\n"` with `ahead` limit
exceeded irrelevant. -/
theorem behind_pos_needsRebase_witness :
    (CommitChecks.main (some "feature") "origin/main"
        (fun _ => Except.ok "2\t1\n")).verdict = Verdict.needsRebase ∧
      (CommitChecks.main (some "feature") "origin/main"
        (fun _ => Except.ok "2\t1\n")).exitCode = 1 :=
  behind_pos_needsRebase (some "feature") "origin/main"
    (fun _ => Except.ok "2\t1\n") "2\t1\n" 2 1
    (by decide) rfl (by decide) (by decide)

/-- C2: with the source present, the distance query succeeding and
`behind = 0`, any `ahead > 15` yields TooManyCommits with exit code 1,
while `ahead = 15` does not yield TooManyCommits. -/
theorem ahead_over_limit_tooManyCommits (srcb : Option String) (tgtb : String)
    (git : String → Except String String) (out : String) (ahead : Int)
    (hs : pyStr srcb ≠ "None")
    (hrev : git (revListInvocation tgtb (pyStr srcb)) = Except.ok out)
    (hparse : parseDistance out = some (0, ahead)) :
    ((15 : Int) < ahead →
      (CommitChecks.main srcb tgtb git).verdict = Verdict.tooManyCommits ∧
        (CommitChecks.main srcb tgtb git).exitCode = 1) ∧
    (ahead = 15 →
      (CommitChecks.main srcb tgtb git).verdict ≠ Verdict.tooManyCommits) := by
  constructor
  · intro ha
    simp [CommitChecks.main, hs, hrev, hparse, COMMIT_LIMIT, ha]
  · rintro rfl
    simp only [CommitChecks.main, hs, if_neg, ite_false, hrev, hparse]
    simp [COMMIT_LIMIT]
    rcases hdesc : git (describeInvocation (pyStr srcb)) with e | out2 <;>
      simp [hdesc]
    split <;> simp

/-- Witness for C2 at distance output `"0\t20"`. -/
theorem ahead_over_limit_tooManyCommits_witness :
    (CommitChecks.main (some "feature") "origin/main"
        (fun _ => Except.ok "0\t20")).verdict = Verdict.tooManyCommits ∧
      (CommitChecks.main (some "feature") "origin/main"
        (fun _ => Except.ok "0\t20")).exitCode = 1 :=
  (ahead_over_limit_tooManyCommits (some "feature") "origin/main"
    (fun _ => Except.ok "0\t20") "0\t20" 20
    (by decide) rfl (by decide)).1 (by decide)

/-- C3: with the source present, `behind = 0`, `ahead ≤ 15` and the
ancestry query succeeding, the run passes with exit code 0 exactly when
the Ancestry Label is `"main"`, and is WrongAncestry with exit code 1
for every other label. -/
theorem ancestry_decides_pass (srcb : Option String) (tgtb : String)
    (git : String → Except String String) (out out2 : String) (ahead : Int)
    (hs : pyStr srcb ≠ "None")
    (hrev : git (revListInvocation tgtb (pyStr srcb)) = Except.ok out)
    (hparse : parseDistance out = some (0, ahead))
    (ha : ahead ≤ 15)
    (hdesc : git (describeInvocation (pyStr srcb)) = Except.ok out2) :
    ((CommitChecks.main srcb tgtb git).verdict = Verdict.pass ∧
        (CommitChecks.main srcb tgtb git).exitCode = 0 ↔
      ancestryLabel out2 = "main") ∧
    (ancestryLabel out2 ≠ "main" →
      (CommitChecks.main srcb tgtb git).verdict = Verdict.wrongAncestry ∧
        (CommitChecks.main srcb tgtb git).exitCode = 1) := by
  have ha' : ¬ ((15 : Int) < ahead) := not_lt.mpr ha
  by_cases hlab : ancestryLabel out2 = "main" <;>
    simp [CommitChecks.main, hs, hrev, hparse, COMMIT_LIMIT, ha', hdesc, hlab]

/-- Witness for C3 at distance output `"0\t3"` and ancestry output
`"refs/remotes/origin/main\n"`. -/
theorem ancestry_decides_pass_witness :
    ((CommitChecks.main (some "feature") "origin/main"
          (fun c => if c = revListInvocation "origin/main" "feature"
            then Except.ok "0\t3"
            else Except.ok "refs/remotes/origin/main\n")).verdict = Verdict.pass ∧
        (CommitChecks.main (some "feature") "origin/main"
          (fun c => if c = revListInvocation "origin/main" "feature"
            then Except.ok "0\t3"
            else Except.ok "refs/remotes/origin/main\n")).exitCode = 0 ↔
      ancestryLabel "refs/remotes/origin/main\n" = "main") ∧
    (ancestryLabel "refs/remotes/origin/main\n" ≠ "main" →
      (CommitChecks.main (some "feature") "origin/main"
          (fun c => if c = revListInvocation "origin/main" "feature"
            then Except.ok "0\t3"
            else Except.ok "refs/remotes/origin/main\n")).verdict =
          Verdict.wrongAncestry ∧
        (CommitChecks.main (some "feature") "origin/main"
          (fun c => if c = revListInvocation "origin/main" "feature"
            then Except.ok "0\t3"
            else Except.ok "refs/remotes/origin/main\n")).exitCode = 1) :=
  ancestry_decides_pass (some "feature") "origin/main"
    (fun c => if c = revListInvocation "origin/main" "feature"
      then Except.ok "0\t3"
      else Except.ok "refs/remotes/origin/main\n")
    "0\t3" "refs/remotes/origin/main\n" 3
    (by decide) rfl (by decide) (by decide) rfl

/-- C4: when the source branch argument is absent, the checker returns
the generic failure sentinel -1 (verdict QueryError) with zero external
queries performed, for every target branch and every git behaviour. -/
theorem missing_source_short_circuits (tgtb : String)
    (git : String → Except String String) :
    (CommitChecks.main none tgtb git).verdict = Verdict.queryError ∧
      (CommitChecks.main none tgtb git).exitCode = -1 ∧
      (CommitChecks.main none tgtb git).revListCalls = 0 ∧
      (CommitChecks.main none tgtb git).describeCalls = 0 := by
  simp [CommitChecks.main, pyStr]

/-- C5: with the source present, a failing distance query, or distance
output that `int`-parsing rejects, returns the query-error sentinel -1
(verdict QueryError); the embedding is a total function, so no
exception escapes. -/
theorem query_failure_returns_sentinel (srcb : Option String) (tgtb : String)
    (git : String → Except String String)
    (hs : pyStr srcb ≠ "None") :
    (∀ e, git (revListInvocation tgtb (pyStr srcb)) = Except.error e →
      (CommitChecks.main srcb tgtb git).verdict = Verdict.queryError ∧
        (CommitChecks.main srcb tgtb git).exitCode = -1) ∧
    (∀ out, git (revListInvocation tgtb (pyStr srcb)) = Except.ok out →
      parseDistance out = none →
      (CommitChecks.main srcb tgtb git).verdict = Verdict.queryError ∧
        (CommitChecks.main srcb tgtb git).exitCode = -1) := by
  constructor
  · intro e herr
    simp [CommitChecks.main, hs, herr]
  · intro out hok hparse
    simp [CommitChecks.main, hs, hok, hparse]

/-- Witness for C5 at the malformed one-token distance output `"5"`. -/
theorem query_failure_returns_sentinel_witness :
    (CommitChecks.main (some "feature") "origin/main"
        (fun _ => Except.ok "5")).verdict = Verdict.queryError ∧
      (CommitChecks.main (some "feature") "origin/main"
        (fun _ => Except.ok "5")).exitCode = -1 :=
  (query_failure_returns_sentinel (some "feature") "origin/main"
    (fun _ => Except.ok "5") (by decide)).2 "5" rfl (by decide)

/-- C6: in every invocation each of the two git invocations runs at most
once (so at most two external calls and no retry), and the ancestry
query never runs when the distance policy already failed with
NeedsRebase or TooManyCommits. -/
theorem ancestry_query_skipped_on_policy_failure (srcb : Option String)
    (tgtb : String) (git : String → Except String String) :
    (CommitChecks.main srcb tgtb git).revListCalls +
        (CommitChecks.main srcb tgtb git).describeCalls ≤ 2 ∧
      (CommitChecks.main srcb tgtb git).revListCalls ≤ 1 ∧
      (CommitChecks.main srcb tgtb git).describeCalls ≤ 1 ∧
      ((CommitChecks.main srcb tgtb git).verdict = Verdict.needsRebase ∨
        (CommitChecks.main srcb tgtb git).verdict = Verdict.tooManyCommits →
        (CommitChecks.main srcb tgtb git).describeCalls = 0) := by
  unfold CommitChecks.main
  repeat' split
  all_goals simp

/-- Witness for C6 on the NeedsRebase path (distance output `"2\t1"`):
the ancestry query is never executed. -/
theorem ancestry_query_skipped_witness :
    (CommitChecks.main (some "feature") "origin/main"
        (fun _ => Except.ok "2\t1")).describeCalls = 0 :=
  (ancestry_query_skipped_on_policy_failure (some "feature") "origin/main"
    (fun _ => Except.ok "2\t1")).2.2.2 (Or.inl (by decide))

/-- C7: the exit code partitions the verdicts: 0 exactly for Pass, 1
exactly for the three policy failures, and -1 exactly for QueryError
(which covers missing input), in every invocation. -/
theorem exit_code_partitions_verdicts (srcb : Option String) (tgtb : String)
    (git : String → Except String String) :
    ((CommitChecks.main srcb tgtb git).exitCode = 0 ↔
        (CommitChecks.main srcb tgtb git).verdict = Verdict.pass) ∧
      ((CommitChecks.main srcb tgtb git).exitCode = 1 ↔
        ((CommitChecks.main srcb tgtb git).verdict = Verdict.needsRebase ∨
          (CommitChecks.main srcb tgtb git).verdict = Verdict.tooManyCommits ∨
          (CommitChecks.main srcb tgtb git).verdict = Verdict.wrongAncestry)) ∧
      ((CommitChecks.main srcb tgtb git).exitCode = -1 ↔
        (CommitChecks.main srcb tgtb git).verdict = Verdict.queryError) := by
  unfold CommitChecks.main
  repeat' split
  all_goals simp

/-- C9: supplying the source branch as the literal string `"None"` is
indistinguishable from omitting it: same QueryError verdict, same -1
sentinel, and no external query, for every target and git behaviour. -/
theorem none_literal_source_is_missing (tgtb : String)
    (git : String → Except String String) :
    CommitChecks.main (some "None") tgtb git = CommitChecks.main none tgtb git ∧
      (CommitChecks.main (some "None") tgtb git).verdict = Verdict.queryError ∧
      (CommitChecks.main (some "None") tgtb git).exitCode = -1 ∧
      (CommitChecks.main (some "None") tgtb git).revListCalls = 0 ∧
      (CommitChecks.main (some "None") tgtb git).describeCalls = 0 := by
  simp [CommitChecks.main, pyStr]

/-- C8 as stated is false on the code: Python `int` accepts a signed
token, so the distance output `"-1\t2"` parses successfully to the
negative `behind = -1` instead of being rejected. -/
theorem parse_negative_counterexample :
    parseDistance "-1\t2" = some (-1, 2) ∧ ¬ (0 ≤ (-1 : Int)) := by
  decide

/-- C8 amended: when no tab-separated token of the distance output
starts (after leading whitespace) with a minus sign — in particular for
the unsigned integer tokens the external tool's contract guarantees —
every successfully parsed `(behind, ahead)` pair is non-negative; a
parsing failure yields `none` (the query-error path), never a value. -/
theorem parsed_distance_nonneg_of_unsigned (out : String) (b a : Int)
    (h : parseDistance out = some (b, a))
    (htok : ∀ p ∈ pyRsplitTab1 out.data,
      (p.dropWhile isPyWhitespace).head? ≠ some '-') :
    0 ≤ b ∧ 0 ≤ a := by
  unfold parseDistance at h
  rcases hsplit : rsplitTab1Aux out.data with _ | ⟨l, r⟩
  · have hp : pyRsplitTab1 out.data = [out.data] := by
      simp [pyRsplitTab1, hsplit]
    rw [hp, mapM_single] at h
    cases hpi : pythonInt out.data <;> simp [hpi] at h
  · have hp : pyRsplitTab1 out.data = [l, r] := by
      simp [pyRsplitTab1, hsplit]
    rw [hp, mapM_pair] at h
    cases hl : pythonInt l <;> cases hr : pythonInt r <;> simp [hl, hr] at h
    obtain ⟨rfl, rfl⟩ := h
    exact ⟨pythonInt_nonneg hl (htok l (by rw [hp]; simp)),
           pythonInt_nonneg hr (htok r (by rw [hp]; simp))⟩

/-- Witness for the amended C8 at the contract-shaped output `"0\t3"`. -/
theorem parsed_distance_nonneg_witness :
    parseDistance "0\t3" = some (0, 3) ∧ 0 ≤ (0 : Int) ∧ 0 ≤ (3 : Int) :=
  ⟨by decide,
   parsed_distance_nonneg_of_unsigned "0\t3" 0 3 (by decide) (by decide)⟩

/-- C10: when the ancestry output holds no slash, the Ancestry Label is
the whole output with surrounding whitespace stripped; in particular
`"main\n"` yields the label `"main"`, and an invocation reaching the
ancestry step with that output passes with exit code 0. -/
theorem slashless_output_label (out : String) (srcb : Option String)
    (tgtb : String) (git : String → Except String String)
    (hslash : ∀ c ∈ out.data, c ≠ '/') :
    ancestryLabel out = String.mk (pyStripL out.data) ∧
      (out = "main\n" → ancestryLabel out = "main") ∧
      (out = "main\n" → pyStr srcb ≠ "None" →
        git (revListInvocation tgtb (pyStr srcb)) = Except.ok "0\t3" →
        git (describeInvocation (pyStr srcb)) = Except.ok out →
        (CommitChecks.main srcb tgtb git).verdict = Verdict.pass ∧
          (CommitChecks.main srcb tgtb git).exitCode = 0) := by
  have h1 : ancestryLabel out = String.mk (pyStripL out.data) := by
    unfold ancestryLabel
    rw [splitSlash_no_slash out.data hslash]
    rfl
  refine ⟨h1, fun hmn => ?_, fun hmn hs hrev hdesc => ?_⟩
  · subst hmn
    decide
  · subst hmn
    have hp : parseDistance "0\t3" = some (0, 3) := by decide
    have hl : ancestryLabel "main\n" = "main" := by decide
    simp [CommitChecks.main, hs, hrev, hp, hdesc, hl, COMMIT_LIMIT]

/-- Witness for C10: ancestry output `"main\n"`, distance `"0\t3"`. -/
theorem slashless_output_label_witness :
    ancestryLabel "main\n" = "main" ∧
      (CommitChecks.main (some "feature") "origin/main"
        (fun c => if c = revListInvocation "origin/main" "feature"
          then Except.ok "0\t3"
          else Except.ok "main\n")).verdict = Verdict.pass ∧
      (CommitChecks.main (some "feature") "origin/main"
        (fun c => if c = revListInvocation "origin/main" "feature"
          then Except.ok "0\t3"
          else Except.ok "main\n")).exitCode = 0 :=
  ⟨(slashless_output_label "main\n" (some "feature") "origin/main"
      (fun c => if c = revListInvocation "origin/main" "feature"
        then Except.ok "0\t3"
        else Except.ok "main\n") (by decide)).2.1 rfl,
   ((slashless_output_label "main\n" (some "feature") "origin/main"
      (fun c => if c = revListInvocation "origin/main" "feature"
        then Except.ok "0\t3"
        else Except.ok "main\n") (by decide)).2.2 rfl (by decide) rfl rfl).1,
   ((slashless_output_label "main\n" (some "feature") "origin/main"
      (fun c => if c = revListInvocation "origin/main" "feature"
        then Except.ok "0\t3"
        else Except.ok "main\n") (by decide)).2.2 rfl (by decide) rfl rfl).2⟩

end CommitChecks

section Sanity

open CommitChecks

example : parseDistance "2\t1\n" = some (2, 1) := by decide
example : parseDistance "0\t3" = some (0, 3) := by decide
example : parseDistance "5" = none := by decide
example : parseDistance "1\t2\t3" = none := by decide
example : parseDistance "-1\t2" = some (-1, 2) := by decide
example : parseDistance "" = none := by decide
example : ancestryLabel "refs/remotes/origin/main\n" = "main" := by decide
example : ancestryLabel "main\n" = "main" := by decide
example : ancestryLabel "refs/heads/feature-x\n" = "feature-x" := by decide
example :
    CommitChecks.main (some "feat") "origin/main"
      (fun _ => Except.ok "2\t1\n") =
    ⟨Verdict.needsRebase, 1, 1, 0⟩ := by decide
example :
    CommitChecks.main none "origin/main" (fun _ => Except.ok "0\t0\n") =
    ⟨Verdict.queryError, -1, 0, 0⟩ := by decide

end Sanity
